import Mathlib

/-!
Shallow embedding of the structured task-list manager
(`src/manager/TodoManager.ts`, class `TodoManager`) of the repository.

The manager stores an ordered list of task records and replaces it wholly on
each successful `update` call.  Candidate records arrive as untyped
JavaScript-like structures, so field values are modelled by `JSValue`
(string, number, boolean, null, undefined); the stored records of the manager
(`TodoItem`) have plain string fields, `status` being the lower-cased string
that passed validation.

JavaScript semantics used by the source and mirrored here:
  - truthiness: a string is truthy iff non-empty, a number iff non-zero,
    booleans are themselves, null and undefined are falsy;
  - `x || y` yields `x` when `x` is truthy, else `y`;
  - `String(v)` stringifies any value;
  - `trim` removes leading and trailing whitespace;
  - `toLocaleLowerCase` exists only on strings: calling it on a non-string
    raises a TypeError (the source does NOT wrap `status` in `String(...)`,
    unlike `content` and `activeForm`).
-/

deriving instance DecidableEq for Except

/-- JavaScript toLocaleLowerCase (default locale) on the character data of
a string, defined over the character list so that it computes in the
kernel. -/
def strLower (s : String) : String := String.mk (s.data.map Char.toLower)

/-- JavaScript String.prototype.trim: remove leading and trailing
whitespace, defined over the character list so that it computes in the
kernel. -/
def strTrim (s : String) : String :=
  String.mk (((s.data.dropWhile Char.isWhitespace).reverse.dropWhile Char.isWhitespace).reverse)

/-- JavaScript-like dynamic value for fields of a candidate record. -/
inductive JSValue where
  | str (s : String)
  | num (n : Int)
  | boolV (b : Bool)
  | nullV
  | undef
deriving Repr, DecidableEq

/-- JavaScript truthiness of a value. -/
def JSValue.truthy : JSValue → Bool
  | JSValue.str s => s != ""
  | JSValue.num n => n != 0
  | JSValue.boolV b => b
  | JSValue.nullV => false
  | JSValue.undef => false

/-- JavaScript string coercion, as performed by String(v). -/
def JSValue.toText : JSValue → String
  | JSValue.str s => s
  | JSValue.num n => toString n
  | JSValue.boolV b => if b then "true" else "false"
  | JSValue.nullV => "null"
  | JSValue.undef => "undefined"

/-- JavaScript logical-or on values: x when x is truthy, else y. -/
def jsOr (x y : JSValue) : JSValue := if x.truthy then x else y

/-- An untyped candidate record as submitted to update; a missing field is
JSValue.undef (property access on a missing key yields undefined). -/
structure CandidateItem where
  content : JSValue
  status : JSValue
  activeForm : JSValue
deriving Repr, DecidableEq

/-- A validated, stored task record (interface TodoItem of the source);
status holds the lower-cased string that passed validation. -/
structure TodoItem where
  content : String
  status : String
  activeForm : String
deriving Repr, DecidableEq

/-- The three legal status values of the validation check in the source. -/
def legalStatuses : List String := ["pending", "in_progress", "completed"]

/-- Errors update can raise.  The first five mirror the explicit throw
statements of the source; typeError models the runtime TypeError raised by
calling toLocaleLowerCase on a truthy non-string status value. -/
inductive UpdateError where
  | contentRequired (i : Nat)
  | invalidStatus (i : Nat) (s : String)
  | activeFormRequired (i : Nat)
  | tooManyTasks
  | multipleInProgress
  | typeError (i : Nat)
deriving Repr, DecidableEq

/-- Message carried by each explicitly thrown error, exactly as in the
source (\x27 is the ASCII apostrophe); the TypeError message is
runtime-generated and abstracted. -/
def errorMessage : UpdateError → String
  | UpdateError.contentRequired i => "第 " ++ toString i ++ " 项: 需要内容 (content)"
  | UpdateError.invalidStatus i s => "第 " ++ toString i ++ " 项: 无效状态 \x27" ++ s ++ "\x27"
  | UpdateError.activeFormRequired i => "第 " ++ toString i ++ " 项: 需要 activeForm"
  | UpdateError.tooManyTasks => "最多允许20项待办事项"
  | UpdateError.multipleInProgress => "同一时间只能有一项任务进行中(in_progress)"
  | UpdateError.typeError _ => "TypeError: toLocaleLowerCase is not a function"

/-- Evaluation of the source expression
(item?.status || \x27pending\x27).toLocaleLowerCase() at record index i:
the falsy-default is applied first; the result then must be a string for
toLocaleLowerCase to exist, otherwise a TypeError is raised. -/
def statusCoerce (i : Nat) (v : JSValue) : Except UpdateError String :=
  match jsOr v (JSValue.str "pending") with
  | JSValue.str s => Except.ok (strLower s)
  | _ => Except.error (UpdateError.typeError i)

/-- The body of the validation loop of update for the record at index i:
extract content, status (which can raise a TypeError) and activeForm, then
run the three checks in source order (content, status, activeForm). -/
def validateItem (i : Nat) (item : CandidateItem) : Except UpdateError TodoItem :=
  let content := strTrim (jsOr item.content (JSValue.str "")).toText
  match statusCoerce i item.status with
  | Except.error e => Except.error e
  | Except.ok status =>
    let activeForm := strTrim (jsOr item.activeForm (JSValue.str "")).toText
    if content = "" then Except.error (UpdateError.contentRequired i)
    else if status ∉ legalStatuses then Except.error (UpdateError.invalidStatus i status)
    else if activeForm = "" then Except.error (UpdateError.activeFormRequired i)
    else Except.ok { content := content, status := status, activeForm := activeForm }

/-- The validation loop of update, run from index i: the first failing
record aborts the loop with its error, otherwise the validated records are
accumulated in order. -/
def validateFrom (i : Nat) : List CandidateItem → Except UpdateError (List TodoItem)
  | [] => Except.ok []
  | item :: rest =>
    match validateItem i item with
    | Except.error e => Except.error e
    | Except.ok v =>
      match validateFrom (i + 1) rest with
      | Except.error e => Except.error e
      | Except.ok vs => Except.ok (v :: vs)

/-- Number of validated records with in_progress status; equals the running
counter inProgressCount of the source at the end of the loop. -/
def inProgressCount (l : List TodoItem) : Nat :=
  l.countP (fun t => t.status == "in_progress")

/-- JavaScript Array.prototype.join with separator newline, as used by
render on its array of lines. -/
def joinLines : List String → String
  | [] => ""
  | [x] => x
  | x :: rest => x ++ "\n" ++ joinLines rest

/-- Number of stored records with completed status (the filter of render). -/
def completedCount (l : List TodoItem) : Nat :=
  (l.filter (fun t => t.status == "completed")).length

/-- Rendering of a single record: one line whose shape depends on status. -/
def renderLine (t : TodoItem) : String :=
  if t.status == "completed" then "[x] " ++ t.content
  else if t.status == "in_progress" then "[>] " ++ t.content ++ " <- " ++ t.activeForm
  else "[ ] " ++ t.content

/-- The render method over a stored list: a fixed sentinel when empty,
otherwise one line per record followed by a summary element that starts
with a newline (hence a blank line after joining with newlines). -/
def render (items : List TodoItem) : String :=
  if items.length = 0 then "没有待办事项。"
  else
    joinLines (items.map renderLine ++
      ["\n(" ++ toString (completedCount items) ++ "/" ++ toString items.length ++ " 已完成)"])

/-- The update method up to (but not including) the final assignment to
this.items: validation loop, then the size check, then the in-progress
check. -/
def updateResult (items : List CandidateItem) : Except UpdateError (List TodoItem) :=
  match validateFrom 0 items with
  | Except.error e => Except.error e
  | Except.ok validated =>
    if validated.length > 20 then Except.error UpdateError.tooManyTasks
    else if inProgressCount validated > 1 then Except.error UpdateError.multipleInProgress
    else Except.ok validated

/-- Full update call against a stored state: on success the state is wholly
replaced and the render of the new state is returned. -/
def update (_state : List TodoItem) (items : List CandidateItem) :
    Except UpdateError (List TodoItem × String) :=
  match updateResult items with
  | Except.error e => Except.error e
  | Except.ok validated => Except.ok (validated, render validated)

/-- Stored state after an update call: replaced on success, untouched on
failure (the source throws before the assignment to this.items). -/
def stateAfterUpdate (state : List TodoItem) (items : List CandidateItem) :
    List TodoItem :=
  match updateResult items with
  | Except.error _ => state
  | Except.ok validated => validated

/-- The count accessor of the manager. -/
def count (items : List TodoItem) : Nat := items.length

/-- A candidate record all three fields of which are strings, as produced
by the declared tool schema. -/
structure RawItem where
  content : String
  status : String
  activeForm : String
deriving Repr, DecidableEq

/-- View of a string-fielded record as an untyped candidate. -/
def RawItem.toCandidate (r : RawItem) : CandidateItem :=
  { content := JSValue.str r.content
    status := JSValue.str r.status
    activeForm := JSValue.str r.activeForm }

/-- Normalization update applies to a valid string-fielded record: trim
content and activeForm, lower-case status. -/
def RawItem.normalize (r : RawItem) : TodoItem :=
  { content := strTrim r.content
    status := strLower r.status
    activeForm := strTrim r.activeForm }

/-- Validity of a string-fielded record: non-empty content and activeForm
after trimming, and a status legal up to letter case. -/
def RawItem.valid (r : RawItem) : Prop :=
  strTrim r.content ≠ "" ∧ strLower r.status ∈ legalStatuses ∧ strTrim r.activeForm ≠ ""

instance (r : RawItem) : Decidable r.valid := by
  unfold RawItem.valid
  infer_instance

/-- Concrete two-record input for the C1 witness; one status is written
in upper case. -/
def c1Input : List RawItem :=
  [{ content := "Write tests", status := "IN_PROGRESS", activeForm := "Writing tests" },
   { content := "Ship", status := "pending", activeForm := "Shipping" }]

/-- A candidate record with every field undefined, as for a null array
entry. -/
def undefItem : CandidateItem :=
  { content := JSValue.undef
    status := JSValue.undef
    activeForm := JSValue.undef }

/-- A one-record stored state used by the C2 witness. -/
def keepState : List TodoItem :=
  [{ content := "keep", status := "pending", activeForm := "keeping" }]

/-- Stock valid record used by boundary witnesses. -/
def stockItem : RawItem := { content := "task", status := "pending", activeForm := "doing" }

/-- Stock in-progress record used by the C5 witness. -/
def busyItem : RawItem := { content := "task", status := "in_progress", activeForm := "doing" }

/-- Boolean test that the first list is an initial segment of the
second. -/
def listPrefixOf : List Char → List Char → Bool
  | [], _ => true
  | _ :: _, [] => false
  | a :: as, b :: bs => a == b && listPrefixOf as bs

/-- Boolean test that pat occurs contiguously inside the second list. -/
def listInfixOf (pat : List Char) : List Char → Bool
  | [] => listPrefixOf pat []
  | b :: bs => listPrefixOf pat (b :: bs) || listInfixOf pat bs

/-- Boolean substring test (contiguous occurrence) used to state render
containment facts. -/
def strContains (s pat : String) : Bool := listInfixOf pat.data s.data

/-- Recognizer for the invalid-status validation error among update
results. -/
def isInvalidStatusResult : Except UpdateError (List TodoItem) → Bool
  | Except.error (UpdateError.invalidStatus _ _) => true
  | _ => false

/-- Concrete two-record input of scenario B of the spec. -/
def c3Input : List RawItem :=
  [{ content := "Write tests", status := "in_progress", activeForm := "Writing tests" },
   { content := "Ship", status := "pending", activeForm := "Shipping" }]

/-- One-record input whose content is whitespace only (scenario C). -/
def blankContentInput : List CandidateItem :=
  [RawItem.toCandidate { content := "   ", status := "pending", activeForm := "x" }]

/-- Two-record input whose second record has status blocked (scenario D). -/
def blockedInput : List CandidateItem :=
  [RawItem.toCandidate { content := "a", status := "pending", activeForm := "b" },
   RawItem.toCandidate { content := "c", status := "blocked", activeForm := "d" }]

/-- Twenty-two individually valid records, two of them in progress. -/
def bigValidInput : List RawItem := busyItem :: busyItem :: List.replicate 20 stockItem

/-- One-record stored state used by the C3 witness. -/
def shipState : List TodoItem :=
  [{ content := "Ship", status := "pending", activeForm := "Shipping" }]

/-- A candidate record whose status field is the number 1 (truthy and not
a string). -/
def numStatusItem : CandidateItem :=
  { content := JSValue.str "task"
    status := JSValue.num 1
    activeForm := JSValue.str "doing" }

/-- One-record input whose status field is present but empty. -/
def emptyStatusInput : List CandidateItem :=
  [RawItem.toCandidate { content := "task", status := "", activeForm := "doing" }]

/-! Helper lemmas shared by the claim theorems. -/

theorem jsOr_str_of_ne (s : String) (y : JSValue) (h : s ≠ "") :
    jsOr (JSValue.str s) y = JSValue.str s := by
  simp [jsOr, JSValue.truthy, h]

theorem jsOr_of_falsy (x y : JSValue) (h : x.truthy = false) : jsOr x y = y := by
  simp [jsOr, h]

theorem contentExtract_str (c : String) :
    strTrim (jsOr (JSValue.str c) (JSValue.str "")).toText = strTrim c := by
  by_cases h : c = ""
  · subst h; rfl
  · rw [jsOr_str_of_ne c _ h]
    rfl

theorem statusCoerce_str_of_ne (i : Nat) (s : String) (h : s ≠ "") :
    statusCoerce i (JSValue.str s) = Except.ok (strLower s) := by
  simp [statusCoerce, jsOr_str_of_ne s _ h]

theorem statusCoerce_falsy (i : Nat) (v : JSValue) (h : v.truthy = false) :
    statusCoerce i v = Except.ok "pending" := by
  simp [statusCoerce, jsOr_of_falsy v _ h]
  decide

theorem statusCoerce_str_isOk (i : Nat) (s : String) :
    ∃ t, statusCoerce i (JSValue.str s) = Except.ok t := by
  by_cases h : s = ""
  · subst h
    exact ⟨"pending", statusCoerce_falsy i _ (by decide)⟩
  · exact ⟨strLower s, statusCoerce_str_of_ne i s h⟩

theorem validateItem_raw (i : Nat) (r : RawItem) (h : r.valid) :
    validateItem i r.toCandidate = Except.ok r.normalize := by
  obtain ⟨h1, h2, h3⟩ := h
  have hs : r.status ≠ "" := by
    intro he
    rw [he] at h2
    revert h2
    decide
  simp [validateItem, RawItem.toCandidate, statusCoerce_str_of_ne i _ hs,
    contentExtract_str, h1, h2, h3, RawItem.normalize]

theorem validateItem_missing_content (i : Nat) (r : RawItem) (h : strTrim r.content = "") :
    validateItem i r.toCandidate = Except.error (UpdateError.contentRequired i) := by
  obtain ⟨t, ht⟩ := statusCoerce_str_isOk i r.status
  simp [validateItem, RawItem.toCandidate, ht, contentExtract_str, h]

theorem validateItem_invalid_status (i : Nat) (r : RawItem)
    (hc : strTrim r.content ≠ "") (hs : r.status ≠ "")
    (hleg : strLower r.status ∉ legalStatuses) :
    validateItem i r.toCandidate = Except.error (UpdateError.invalidStatus i (strLower r.status)) := by
  simp [validateItem, RawItem.toCandidate, statusCoerce_str_of_ne i _ hs,
    contentExtract_str, hc, hleg]

theorem validateItem_missing_activeForm (i : Nat) (r : RawItem)
    (hc : strTrim r.content ≠ "") (hs : r.status ≠ "")
    (hleg : strLower r.status ∈ legalStatuses) (ha : strTrim r.activeForm = "") :
    validateItem i r.toCandidate = Except.error (UpdateError.activeFormRequired i) := by
  simp [validateItem, RawItem.toCandidate, statusCoerce_str_of_ne i _ hs,
    contentExtract_str, hc, hleg, ha]

theorem validateFrom_map_valid (i : Nat) (rs : List RawItem) (h : ∀ r ∈ rs, r.valid) :
    validateFrom i (rs.map RawItem.toCandidate) = Except.ok (rs.map RawItem.normalize) := by
  induction rs generalizing i with
  | nil => rfl
  | cons r rest ih =>
    have hr : r.valid := h r (List.mem_cons_self r rest)
    have hrest : ∀ x ∈ rest, x.valid := fun x hx => h x (List.mem_cons_of_mem r hx)
    simp [validateFrom, validateItem_raw i r hr, ih (i + 1) hrest]

theorem inProgressCount_map_normalize (rs : List RawItem) :
    inProgressCount (rs.map RawItem.normalize) =
      rs.countP (fun r => strLower r.status == "in_progress") := by
  simp [inProgressCount, List.countP_map]
  rfl

theorem updateResult_valid (rs : List RawItem) (h : ∀ r ∈ rs, r.valid)
    (hlen : rs.length ≤ 20)
    (hip : rs.countP (fun r => strLower r.status == "in_progress") ≤ 1) :
    updateResult (rs.map RawItem.toCandidate) = Except.ok (rs.map RawItem.normalize) := by
  have hv := validateFrom_map_valid 0 rs h
  have h1 : ¬ ((rs.map RawItem.normalize).length > 20) := by
    rw [List.length_map]
    omega
  have h2 : ¬ (inProgressCount (rs.map RawItem.normalize) > 1) := by
    rw [inProgressCount_map_normalize]
    omega
  simp only [updateResult, hv]
  rw [if_neg h1, if_neg h2]

theorem validateFrom_append_ok (i : Nat) (xs ys : List CandidateItem) (vs : List TodoItem)
    (h : validateFrom i xs = Except.ok vs) :
    validateFrom i (xs ++ ys) =
      match validateFrom (i + xs.length) ys with
      | Except.error e => Except.error e
      | Except.ok ws => Except.ok (vs ++ ws) := by
  induction xs generalizing i vs with
  | nil =>
    simp [validateFrom] at h
    subst h
    simp [validateFrom]
    cases validateFrom i ys <;> simp
  | cons x xs ih =>
    rw [List.cons_append]
    simp only [validateFrom] at h ⊢
    cases hx : validateItem i x with
    | error e => rw [hx] at h; cases h
    | ok v =>
      rw [hx] at h
      cases hxs : validateFrom (i + 1) xs with
      | error e => rw [hxs] at h; cases h
      | ok ws2 =>
        rw [hxs] at h
        injection h with h
        subst h
        have harith : i + (x :: xs).length = i + 1 + xs.length := by
          simp only [List.length_cons]
          omega
        simp only [ih (i + 1) ws2 hxs, harith]
        cases validateFrom (i + 1 + xs.length) ys <;> simp

theorem updateResult_first_error (pre post : List CandidateItem) (item : CandidateItem)
    (vs : List TodoItem) (e : UpdateError)
    (hpre : validateFrom 0 pre = Except.ok vs)
    (hitem : validateItem pre.length item = Except.error e) :
    updateResult (pre ++ item :: post) = Except.error e := by
  have happ := validateFrom_append_ok 0 pre (item :: post) vs hpre
  rw [Nat.zero_add] at happ
  have hstep : validateFrom pre.length (item :: post) = Except.error e := by
    simp only [validateFrom, hitem]
  rw [hstep] at happ
  simp only [] at happ
  simp [updateResult, happ]

theorem updateResult_too_many (items : List CandidateItem) (vs : List TodoItem)
    (h : validateFrom 0 items = Except.ok vs) (hlen : vs.length > 20) :
    updateResult items = Except.error UpdateError.tooManyTasks := by
  simp [updateResult, h, hlen]

theorem joinLines_append_single (xs : List String) (y : String) (h : xs ≠ []) :
    joinLines (xs ++ [y]) = joinLines xs ++ "\n" ++ y := by
  induction xs with
  | nil => cases h rfl
  | cons x rest ih =>
    cases rest with
    | nil => simp [joinLines]
    | cons a as =>
      rw [List.cons_append]
      have hy : joinLines ((a :: as) ++ [y]) = joinLines (a :: as) ++ "\n" ++ y :=
        ih (by simp)
      show x ++ "\n" ++ joinLines ((a :: as) ++ [y]) = (x ++ "\n" ++ joinLines (a :: as)) ++ "\n" ++ y
      rw [hy]
      simp [String.append_assoc]

theorem statusCoerce_nonstring (i : Nat) (v : JSValue) (hT : v.truthy = true)
    (hNs : ∀ s, v ≠ JSValue.str s) :
    statusCoerce i v = Except.error (UpdateError.typeError i) := by
  cases v with
  | str s => exact absurd rfl (hNs s)
  | num n => simp [statusCoerce, jsOr, hT]
  | boolV b => simp [statusCoerce, jsOr, hT]
  | nullV => simp [JSValue.truthy] at hT
  | undef => simp [JSValue.truthy] at hT

theorem validateItem_typeError (i : Nat) (item : CandidateItem)
    (hT : item.status.truthy = true) (hNs : ∀ s, item.status ≠ JSValue.str s) :
    validateItem i item = Except.error (UpdateError.typeError i) := by
  simp [validateItem, statusCoerce_nonstring i item.status hT hNs]

theorem validateItem_invalid_status_literal (i : Nat) (c a s : String)
    (hc : strTrim c ≠ "") (hs : s ≠ "") (hleg : strLower s ∉ legalStatuses)
    (hfix : strLower s = s) :
    validateItem i (RawItem.toCandidate { content := c, status := s, activeForm := a }) =
      Except.error (UpdateError.invalidStatus i s) := by
  rw [validateItem_invalid_status i _ hc hs hleg, hfix]

/-! Claim theorems. -/

/-- C1: for every list of at most 20 string-fielded records, each with
non-empty content and activeForm after trimming and a status that is legal
up to letter case, and at most one record whose lower-cased status is
in_progress, update succeeds and the stored list (hence the rendered view)
is exactly the submitted records in submitted order, with content and
activeForm trimmed and status normalized to lowercase, so that a status
written IN_PROGRESS behaves identically to in_progress. -/
theorem spec_c1_valid_update_reflects (st : List TodoItem) (rs : List RawItem)
    (hlen : rs.length ≤ 20)
    (hval : ∀ r ∈ rs, r.valid)
    (hip : rs.countP (fun r => strLower r.status == "in_progress") ≤ 1) :
    update st (rs.map RawItem.toCandidate) =
      Except.ok (rs.map RawItem.normalize, render (rs.map RawItem.normalize)) ∧
    stateAfterUpdate st (rs.map RawItem.toCandidate) = rs.map RawItem.normalize := by
  have h := updateResult_valid rs hval hlen hip
  exact ⟨by simp [update, h], by simp [stateAfterUpdate, h]⟩

/-- Closed instance of the C1 theorem at c1Input. -/
theorem spec_c1_witness :
    c1Input.length ≤ 20 ∧ (∀ r ∈ c1Input, r.valid) ∧
    c1Input.countP (fun r => strLower r.status == "in_progress") ≤ 1 ∧
    update [] (c1Input.map RawItem.toCandidate) =
      Except.ok ([{ content := "Write tests", status := "in_progress", activeForm := "Writing tests" },
                  { content := "Ship", status := "pending", activeForm := "Shipping" }],
        "[>] Write tests <- Writing tests\n[ ] Ship\n\n(0/2 已完成)") := by
  refine ⟨by decide, by decide, by decide, ?_⟩
  have h := (spec_c1_valid_update_reflects [] c1Input (by decide) (by decide) (by decide)).1
  rw [h]
  decide

/-- C2: whenever update fails, the stored list is unchanged: render after
the failed call returns exactly the string it returned before, count is
unchanged, and the error is surfaced to the caller; the stored list is
replaced only on full success. -/
theorem spec_c2_failed_update_preserves_state (st : List TodoItem)
    (items : List CandidateItem) (e : UpdateError)
    (h : updateResult items = Except.error e) :
    stateAfterUpdate st items = st ∧
    render (stateAfterUpdate st items) = render st ∧
    count (stateAfterUpdate st items) = count st ∧
    update st items = Except.error e := by
  have hs : stateAfterUpdate st items = st := by simp [stateAfterUpdate, h]
  exact ⟨hs, by rw [hs], by rw [hs], by simp [update, h]⟩

/-- Closed instance of the C2 theorem: a failing update (record with all
fields undefined) leaves a one-record stored state intact. -/
theorem spec_c2_witness :
    updateResult [undefItem] = Except.error (UpdateError.contentRequired 0) ∧
    stateAfterUpdate keepState [undefItem] = keepState ∧
    render (stateAfterUpdate keepState [undefItem]) = render keepState := by
  have h := spec_c2_failed_update_preserves_state keepState [undefItem]
    (UpdateError.contentRequired 0) (by decide)
  exact ⟨by decide, h.1, h.2.1⟩

/-- C4: a list of exactly 20 otherwise-valid records is accepted; a list
of 21 otherwise-valid records is rejected with the too-many-tasks error
and leaves the stored state unchanged. -/
theorem spec_c4_twenty_boundary :
    (∀ rs : List RawItem, rs.length = 20 → (∀ r ∈ rs, r.valid) →
      rs.countP (fun r => strLower r.status == "in_progress") ≤ 1 →
      updateResult (rs.map RawItem.toCandidate) = Except.ok (rs.map RawItem.normalize)) ∧
    (∀ (st : List TodoItem) (rs : List RawItem), rs.length = 21 → (∀ r ∈ rs, r.valid) →
      updateResult (rs.map RawItem.toCandidate) = Except.error UpdateError.tooManyTasks ∧
      stateAfterUpdate st (rs.map RawItem.toCandidate) = st) := by
  constructor
  · intro rs hlen hval hip
    exact updateResult_valid rs hval (by omega) hip
  · intro st rs hlen hval
    have hv := validateFrom_map_valid 0 rs hval
    have hgt : (rs.map RawItem.normalize).length > 20 := by
      rw [List.length_map]
      omega
    have hres := updateResult_too_many (rs.map RawItem.toCandidate) _ hv hgt
    exact ⟨hres, by simp [stateAfterUpdate, hres]⟩

/-- Closed instance of the C4 theorem at 20 and 21 copies of a valid
record. -/
theorem spec_c4_witness :
    (List.replicate 20 stockItem).length = 20 ∧
    updateResult ((List.replicate 20 stockItem).map RawItem.toCandidate) =
      Except.ok ((List.replicate 20 stockItem).map RawItem.normalize) ∧
    (List.replicate 21 stockItem).length = 21 ∧
    updateResult ((List.replicate 21 stockItem).map RawItem.toCandidate) =
      Except.error UpdateError.tooManyTasks ∧
    stateAfterUpdate [] ((List.replicate 21 stockItem).map RawItem.toCandidate) = [] := by
  refine ⟨by decide, ?_, by decide, ?_, ?_⟩
  · exact spec_c4_twenty_boundary.1 (List.replicate 20 stockItem) (by decide) (by decide) (by decide)
  · exact (spec_c4_twenty_boundary.2 [] (List.replicate 21 stockItem) (by decide) (by decide)).1
  · exact (spec_c4_twenty_boundary.2 [] (List.replicate 21 stockItem) (by decide) (by decide)).2

/-- C5: among lists of at most 20 otherwise-valid records, exactly one
in_progress record is accepted, while two in_progress records are rejected
with the multiple-in-progress error and leave the stored state
unchanged. -/
theorem spec_c5_in_progress_boundary :
    (∀ rs : List RawItem, rs.length ≤ 20 → (∀ r ∈ rs, r.valid) →
      rs.countP (fun r => strLower r.status == "in_progress") = 1 →
      updateResult (rs.map RawItem.toCandidate) = Except.ok (rs.map RawItem.normalize)) ∧
    (∀ (st : List TodoItem) (rs : List RawItem), rs.length ≤ 20 → (∀ r ∈ rs, r.valid) →
      rs.countP (fun r => strLower r.status == "in_progress") = 2 →
      updateResult (rs.map RawItem.toCandidate) = Except.error UpdateError.multipleInProgress ∧
      stateAfterUpdate st (rs.map RawItem.toCandidate) = st) := by
  constructor
  · intro rs hlen hval hip
    exact updateResult_valid rs hval hlen (by omega)
  · intro st rs hlen hval hip
    have hv := validateFrom_map_valid 0 rs hval
    have h1 : ¬ ((rs.map RawItem.normalize).length > 20) := by
      rw [List.length_map]
      omega
    have h2 : inProgressCount (rs.map RawItem.normalize) > 1 := by
      rw [inProgressCount_map_normalize, hip]
      omega
    have hres : updateResult (rs.map RawItem.toCandidate) =
        Except.error UpdateError.multipleInProgress := by
      simp only [updateResult, hv]
      rw [if_neg h1, if_pos h2]
    exact ⟨hres, by simp [stateAfterUpdate, hres]⟩

/-- Closed instance of the C5 theorem at one and two in-progress
records. -/
theorem spec_c5_witness :
    ([busyItem].countP (fun r => strLower r.status == "in_progress") = 1) ∧
    updateResult ([busyItem].map RawItem.toCandidate) =
      Except.ok ([busyItem].map RawItem.normalize) ∧
    ([busyItem, busyItem].countP (fun r => strLower r.status == "in_progress") = 2) ∧
    updateResult ([busyItem, busyItem].map RawItem.toCandidate) =
      Except.error UpdateError.multipleInProgress ∧
    stateAfterUpdate [] ([busyItem, busyItem].map RawItem.toCandidate) = [] := by
  refine ⟨by decide, ?_, by decide, ?_, ?_⟩
  · exact spec_c5_in_progress_boundary.1 [busyItem] (by decide) (by decide) (by decide)
  · exact (spec_c5_in_progress_boundary.2 [] [busyItem, busyItem] (by decide) (by decide) (by decide)).1
  · exact (spec_c5_in_progress_boundary.2 [] [busyItem, busyItem] (by decide) (by decide) (by decide)).2

/-- C3 counterexample: for the two-record scenario B input, the rendered
view does not contain the literal summary text (0/2 done); the summary
literal actually produced is the Chinese (0/2 已完成). -/
theorem spec_c3_counterexample :
    strContains (render (stateAfterUpdate [] (c3Input.map RawItem.toCandidate))) "(0/2 done)" = false ∧
    strContains (render (stateAfterUpdate [] (c3Input.map RawItem.toCandidate))) "(0/2 已完成)" = true := by
  decide

/-- C3 amended: render is a function of the stored list; the empty list
gives the fixed no-tasks sentinel; otherwise one line per record in stored
order — with the bracket shapes of the claim — followed by a blank line
and the summary line (completed/total 已完成), where the literal 已完成
(Chinese for done) stands where the claim wrote done; for the scenario B
input the view is the two claimed lines followed by (0/2 已完成). -/
theorem spec_c3_render_format :
    render [] = "没有待办事项。" ∧
    (∀ items : List TodoItem, items ≠ [] →
      render items = joinLines (items.map renderLine) ++ "\n" ++
        ("\n(" ++ toString (completedCount items) ++ "/" ++ toString items.length ++ " 已完成)")) ∧
    (∀ t : TodoItem,
      (t.status = "completed" → renderLine t = "[x] " ++ t.content) ∧
      (t.status = "in_progress" → renderLine t = "[>] " ++ t.content ++ " <- " ++ t.activeForm) ∧
      (t.status ≠ "completed" → t.status ≠ "in_progress" → renderLine t = "[ ] " ++ t.content)) ∧
    update [] (c3Input.map RawItem.toCandidate) =
      Except.ok (c3Input.map RawItem.normalize,
        "[>] Write tests <- Writing tests\n[ ] Ship\n\n(0/2 已完成)") := by
  refine ⟨rfl, ?_, ?_, ?_⟩
  · intro items hne
    have hmap : items.map renderLine ≠ [] := by
      simpa using hne
    have hlen : ¬ (items.length = 0) := by
      simpa [List.length_eq_zero] using hne
    rw [render, if_neg hlen, joinLines_append_single _ _ hmap]
  · intro t
    refine ⟨fun h => by simp [renderLine, h], fun h => by simp [renderLine, h], fun h1 h2 => by simp [renderLine, h1, h2]⟩
  · have h := updateResult_valid c3Input (by decide) (by decide) (by decide)
    simp only [update, h]
    decide

/-- Closed instance of the C3 amended theorem at a one-record stored
list. -/
theorem spec_c3_witness :
    (shipState ≠ []) ∧
    render shipState = joinLines (shipState.map renderLine) ++ "\n" ++
      ("\n(" ++ toString (completedCount shipState) ++ "/" ++ toString shipState.length ++ " 已完成)") := by
  refine ⟨by decide, ?_⟩
  exact spec_c3_render_format.2.1 shipState (by decide)

/-- C6: per-record validation runs in index order and checks the fields of each record in the order content, status, activeForm; the raised error carries
the offending 0-based index and, for status, the lower-cased illegal
value; whitespace-only content at index 0 gives the missing-content error
for index 0, and status blocked gives the invalid-status error naming its
index and the value blocked. -/
theorem spec_c6_validation_order :
    (∀ (i : Nat) (r : RawItem), strTrim r.content = "" →
      validateItem i r.toCandidate = Except.error (UpdateError.contentRequired i)) ∧
    (∀ (i : Nat) (r : RawItem), strTrim r.content ≠ "" → r.status ≠ "" →
      strLower r.status ∉ legalStatuses →
      validateItem i r.toCandidate = Except.error (UpdateError.invalidStatus i (strLower r.status))) ∧
    (∀ (i : Nat) (r : RawItem), strTrim r.content ≠ "" → r.status ≠ "" →
      strLower r.status ∈ legalStatuses → strTrim r.activeForm = "" →
      validateItem i r.toCandidate = Except.error (UpdateError.activeFormRequired i)) ∧
    (∀ (pre post : List CandidateItem) (item : CandidateItem) (vs : List TodoItem) (e : UpdateError),
      validateFrom 0 pre = Except.ok vs → validateItem pre.length item = Except.error e →
      updateResult (pre ++ item :: post) = Except.error e) ∧
    updateResult blankContentInput = Except.error (UpdateError.contentRequired 0) ∧
    errorMessage (UpdateError.contentRequired 0) = "第 0 项: 需要内容 (content)" ∧
    updateResult blockedInput = Except.error (UpdateError.invalidStatus 1 "blocked") ∧
    errorMessage (UpdateError.invalidStatus 1 "blocked") = "第 1 项: 无效状态 \x27blocked\x27" := by
  refine ⟨fun i r h => validateItem_missing_content i r h,
    fun i r h1 h2 h3 => validateItem_invalid_status i r h1 h2 h3,
    fun i r h1 h2 h3 h4 => validateItem_missing_activeForm i r h1 h2 h3 h4,
    fun pre post item vs e h1 h2 => updateResult_first_error pre post item vs e h1 h2,
    by decide, by decide, by decide, by decide⟩

/-- Closed instance of the C6 theorem at scenarios C and D. -/
theorem spec_c6_witness :
    (strTrim "   " = "") ∧
    validateItem 0 (RawItem.toCandidate { content := "   ", status := "pending", activeForm := "x" }) =
      Except.error (UpdateError.contentRequired 0) ∧
    validateItem 1 (RawItem.toCandidate { content := "c", status := "blocked", activeForm := "d" }) =
      Except.error (UpdateError.invalidStatus 1 "blocked") := by
  refine ⟨by decide, ?_, ?_⟩
  · exact spec_c6_validation_order.1 0 _ (by decide)
  · have h := spec_c6_validation_order.2.1 1
      { content := "c", status := "blocked", activeForm := "d" } (by decide) (by decide) (by decide)
    rw [h]
    decide

/-- C9: the aggregate checks run only after every record passed per-record
validation — a per-record error wins regardless of the length of the list
or of how many records are in progress — and the too-many-tasks check runs
before the multiple-in-progress check, so an individually valid list that
is both longer than 20 and has more than one in-progress record fails with
the too-many-tasks error. -/
theorem spec_c9_error_precedence :
    (∀ (pre post : List CandidateItem) (item : CandidateItem) (vs : List TodoItem) (e : UpdateError),
      validateFrom 0 pre = Except.ok vs → validateItem pre.length item = Except.error e →
      updateResult (pre ++ item :: post) = Except.error e) ∧
    (∀ (items : List CandidateItem) (vs : List TodoItem),
      validateFrom 0 items = Except.ok vs → vs.length > 20 →
      updateResult items = Except.error UpdateError.tooManyTasks) ∧
    (∀ rs : List RawItem, (∀ r ∈ rs, r.valid) → rs.length > 20 →
      updateResult (rs.map RawItem.toCandidate) = Except.error UpdateError.tooManyTasks) := by
  refine ⟨fun pre post item vs e h1 h2 => updateResult_first_error pre post item vs e h1 h2,
    fun items vs h1 h2 => updateResult_too_many items vs h1 h2, ?_⟩
  intro rs hval hlen
  have hv := validateFrom_map_valid 0 rs hval
  refine updateResult_too_many _ _ hv ?_
  rw [List.length_map]
  omega

/-- Closed instance of the C9 theorem: a list of 22 valid records with two
in progress plus one invalid record fails with the per-record
error of that record, and without the invalid record it fails with too-many-tasks. -/
theorem spec_c9_witness :
    updateResult ((bigValidInput.map RawItem.toCandidate) ++ undefItem :: []) =
      Except.error (UpdateError.contentRequired 22) ∧
    updateResult (bigValidInput.map RawItem.toCandidate) =
      Except.error UpdateError.tooManyTasks := by
  constructor
  · exact spec_c9_error_precedence.1 (bigValidInput.map RawItem.toCandidate) [] undefItem
      (bigValidInput.map RawItem.normalize) (UpdateError.contentRequired 22) (by decide) (by decide)
  · exact spec_c9_error_precedence.2.2 bigValidInput (by decide) (by decide)

/-- C7 counterexample: a record whose status is the number 1 (truthy and
not a string) makes update raise the TypeError of the unguarded
toLocaleLowerCase call, not an invalid-status validation error. -/
theorem spec_c7_counterexample :
    updateResult [numStatusItem] = Except.error (UpdateError.typeError 0) ∧
    isInvalidStatusResult (updateResult [numStatusItem]) = false := by
  decide

/-- C7 amended: the status field is NOT coerced to text before
validation.  A falsy status value (undefined, null, empty string, zero,
false) defaults to pending; a non-empty string status is lower-cased and
then validated; and a truthy non-string status value makes the
toLocaleLowerCase call raise a TypeError — a non-validation exception that
escapes update (leaving the stored state unchanged) instead of the
invalid-status validation error the claim promises. -/
theorem spec_c7_status_not_coerced :
    (∀ (i : Nat) (v : JSValue), v.truthy = false → statusCoerce i v = Except.ok "pending") ∧
    (∀ (i : Nat) (s : String), s ≠ "" → statusCoerce i (JSValue.str s) = Except.ok (strLower s)) ∧
    (∀ (i : Nat) (v : JSValue), v.truthy = true → (∀ s, v ≠ JSValue.str s) →
      statusCoerce i v = Except.error (UpdateError.typeError i)) ∧
    (∀ (i : Nat) (item : CandidateItem), item.status.truthy = true →
      (∀ s, item.status ≠ JSValue.str s) →
      validateItem i item = Except.error (UpdateError.typeError i)) ∧
    (∀ (st : List TodoItem) (item : CandidateItem) (rest : List CandidateItem),
      item.status.truthy = true → (∀ s, item.status ≠ JSValue.str s) →
      update st (item :: rest) = Except.error (UpdateError.typeError 0) ∧
      stateAfterUpdate st (item :: rest) = st) := by
  refine ⟨fun i v h => statusCoerce_falsy i v h,
    fun i s h => statusCoerce_str_of_ne i s h,
    fun i v h1 h2 => statusCoerce_nonstring i v h1 h2,
    fun i item h1 h2 => validateItem_typeError i item h1 h2, ?_⟩
  intro st item rest hT hNs
  have hfail : validateFrom 0 (item :: rest) = Except.error (UpdateError.typeError 0) := by
    simp only [validateFrom, validateItem_typeError 0 item hT hNs]
  have hu : updateResult (item :: rest) = Except.error (UpdateError.typeError 0) := by
    simp [updateResult, hfail]
  exact ⟨by simp [update, hu], by simp [stateAfterUpdate, hu]⟩

/-- Closed instance of the C7 amended theorem at the numeric status
record. -/
theorem spec_c7_witness :
    numStatusItem.status.truthy = true ∧
    statusCoerce 0 (JSValue.num 1) = Except.error (UpdateError.typeError 0) ∧
    update keepState [numStatusItem] = Except.error (UpdateError.typeError 0) ∧
    stateAfterUpdate keepState [numStatusItem] = keepState := by
  refine ⟨by decide, ?_, ?_, ?_⟩
  · exact spec_c7_status_not_coerced.2.2.1 0 (JSValue.num 1) (by decide)
      (fun s h => JSValue.noConfusion h)
  · exact (spec_c7_status_not_coerced.2.2.2.2 keepState numStatusItem [] (by decide)
      (fun s h => JSValue.noConfusion h)).1
  · exact (spec_c7_status_not_coerced.2.2.2.2 keepState numStatusItem [] (by decide)
      (fun s h => JSValue.noConfusion h)).2

/-- C8 counterexample: a record whose status field is present but equal to
the empty string is accepted by update with status defaulted to pending —
it is not rejected with an invalid-status error. -/
theorem spec_c8_counterexample :
    updateResult emptyStatusInput =
      Except.ok [{ content := "task", status := "pending", activeForm := "doing" }] ∧
    isInvalidStatusResult (updateResult emptyStatusInput) = false := by
  decide

/-- C8 amended: the empty string is falsy, so a present-but-empty status
is defaulted to pending and the record is accepted; only a non-empty
status string whose lower-casing lies outside the three legal values is
rejected with the invalid-status error. -/
theorem spec_c8_empty_status_defaults :
    (∀ i : Nat, statusCoerce i (JSValue.str "") = Except.ok "pending") ∧
    (∀ (i : Nat) (c a : String), strTrim c ≠ "" → strTrim a ≠ "" →
      validateItem i (RawItem.toCandidate { content := c, status := "", activeForm := a }) =
        Except.ok { content := strTrim c, status := "pending", activeForm := strTrim a }) ∧
    (∀ (i : Nat) (r : RawItem), strTrim r.content ≠ "" → r.status ≠ "" →
      strLower r.status ∉ legalStatuses →
      validateItem i r.toCandidate = Except.error (UpdateError.invalidStatus i (strLower r.status))) := by
  refine ⟨fun i => statusCoerce_falsy i _ (by decide), ?_,
    fun i r h1 h2 h3 => validateItem_invalid_status i r h1 h2 h3⟩
  intro i c a hc ha
  simp [validateItem, RawItem.toCandidate, statusCoerce_falsy i (JSValue.str "") (by decide),
    contentExtract_str, hc, ha, legalStatuses]

/-- Closed instance of the C8 amended theorem at a record with empty
status. -/
theorem spec_c8_witness :
    (strTrim "task" ≠ "") ∧
    validateItem 0 (RawItem.toCandidate { content := "task", status := "", activeForm := "doing" }) =
      Except.ok { content := "task", status := "pending", activeForm := "doing" } := by
  refine ⟨by decide, ?_⟩
  have h := spec_c8_empty_status_defaults.2.1 0 "task" "doing" (by decide) (by decide)
  rw [h]
  decide

/-- C10: the status field is not trimmed before validation: a legal status
value padded with a leading or a trailing space is rejected with the
invalid-status error carrying the index of that record and the padded value
(which lower-casing leaves unchanged). -/
theorem spec_c10_status_whitespace_rejected :
    ∀ (i : Nat) (c a s : String), s ∈ legalStatuses → strTrim c ≠ "" →
      validateItem i (RawItem.toCandidate { content := c, status := " " ++ s, activeForm := a }) =
        Except.error (UpdateError.invalidStatus i (" " ++ s)) ∧
      validateItem i (RawItem.toCandidate { content := c, status := s ++ " ", activeForm := a }) =
        Except.error (UpdateError.invalidStatus i (s ++ " ")) := by
  intro i c a s hs hc
  simp only [legalStatuses, List.mem_cons, List.mem_singleton, List.not_mem_nil, or_false] at hs
  rcases hs with rfl | rfl | rfl
  all_goals constructor
  all_goals exact validateItem_invalid_status_literal i c a _ hc (by decide) (by decide) (by decide)

/-- Closed instance of the C10 theorem: the status value pending with a
leading space is rejected at index 0. -/
theorem spec_c10_witness :
    ("pending" ∈ legalStatuses) ∧ (strTrim "t" ≠ "") ∧
    validateItem 0 (RawItem.toCandidate { content := "t", status := " " ++ "pending", activeForm := "x" }) =
      Except.error (UpdateError.invalidStatus 0 (" " ++ "pending")) := by
  refine ⟨by decide, by decide, ?_⟩
  exact (spec_c10_status_whitespace_rejected 0 "t" "x" "pending" (by decide) (by decide)).1
